import Mathlib

/-!
Shallow embedding of `eval.py` from the conclave-mcp repository: the eval-light
benchmark harness (task catalog, result sanitizer, per-task executor, suite
runner, persistence naming, and the `main` driver), together with theorems
settling the specification claims about it.

Python strings are modelled as Lean `String` (a list of characters, matching
Python code-point indexing); Python dict keys that may be absent are modelled
as `Option` fields ("key absent" = `none`, "key present with value None" =
`some none` where the value itself is optional); raised exceptions are
modelled as `Except String`; wall-clock measurements are inputs to the
embedding (a `ℚ` per measurement / a `EvalTask → ℚ` sampling function).
-/

/-- Python string slicing `s[:n]`: the prefix of `s` of at most `n` characters. -/
def strTake (s : String) (n : Nat) : String := ⟨s.data.take n⟩

/-- Python `round(x, 2)`: round to two decimal places. (Python rounds float
ties to even; this embedding rounds ties at the half-cent up — the two agree
everywhere except at exact half-cent values, on which no statement below
depends.) -/
def round2 (q : ℚ) : ℚ := (⌊q * 100 + 1 / 2⌋ : ℚ) / 100

/-- One entry of the static task catalog (eval.py lines 46-223). -/
structure EvalTask where
  id : String
  category : String
  difficulty : String
  question : String
  expected_answer : String
  eval_criteria : String
deriving Repr, DecidableEq

/-- The static task catalog EVAL_TASKS (eval.py lines 46-223). -/
def EVAL_TASKS : List EvalTask := [
  { id := "math_arithmetic",
    category := "math",
    difficulty := "easy",
    question := "What is 847 Ã— 23? Show your work step by step.",
    expected_answer := "19481",
    eval_criteria := "Correct final answer of 19481 with clear working shown" },
  { id := "math_word_problem",
    category := "math",
    difficulty := "medium",
    question := "A train leaves Station A at 9:00 AM traveling at 60 mph. Another train leaves Station B (180 miles away) at 10:00 AM traveling toward Station A at 40 mph. At what time do they meet?",
    expected_answer := "11:12 AM (or 11:11-11:13 range acceptable)",
    eval_criteria := "Correct time calculation with proper reasoning about relative motion" },
  { id := "code_debug",
    category := "code",
    difficulty := "easy",
    question := "Find and fix the bug in this Python code:\n\n```python\ndef calculate_average(numbers):\n    total = 0\n    for num in numbers:\n        total += num\n    return total / len(numbers)\n\nresult = calculate_average([])\nprint(result)\n```\n\nWhat\x27s the bug and how would you fix it?",
    expected_answer := "ZeroDivisionError when empty list; add check for empty list",
    eval_criteria := "Identifies division by zero error and provides reasonable fix" },
  { id := "code_explain",
    category := "code",
    difficulty := "medium",
    question := "Explain what a decorator is in Python. Give a simple example of a decorator that logs when a function is called.",
    expected_answer := "Function that wraps another function; working @log example",
    eval_criteria := "Clear explanation of decorator concept with working code example" },
  { id := "reasoning_logic",
    category := "reasoning",
    difficulty := "medium",
    question := "If all Bloops are Razzles, and all Razzles are Lazzles, are all Bloops definitely Lazzles? Explain your reasoning.",
    expected_answer := "Yes, by transitive property",
    eval_criteria := "Correct answer with clear logical explanation (syllogism/transitivity)" },
  { id := "reasoning_multistep",
    category := "reasoning",
    difficulty := "hard",
    question := "A farmer has a fox, a chicken, and a bag of grain. He needs to cross a river in a boat that can only carry him and one item at a time. If left alone together, the fox will eat the chicken, and the chicken will eat the grain. How can he get everything across safely? List the steps.",
    expected_answer := "Classic river crossing: chicken first, return, fox/grain, bring chicken back, other item, return, chicken last",
    eval_criteria := "Correct sequence of moves that prevents any eating; clear step-by-step solution" },
  { id := "analysis_argument",
    category := "analysis",
    difficulty := "medium",
    question := "Evaluate this argument and identify any logical flaws:\n\n\"Sales of ice cream increase during summer months. Crime rates also increase during summer months. Therefore, eating ice cream causes crime.\"\n\nWhat\x27s wrong with this reasoning?",
    expected_answer := "Correlation vs causation fallacy; third variable (heat/summer) causes both",
    eval_criteria := "Identifies correlation vs causation fallacy; mentions confounding variable (weather/heat)" },
  { id := "analysis_tradeoffs",
    category := "analysis",
    difficulty := "medium",
    question := "A startup is deciding between building their app as a native mobile app (iOS/Android separately) or using a cross-platform framework like React Native. What are the key tradeoffs they should consider? List 3 pros and 3 cons of each approach.",
    expected_answer := "Native: better performance, full API access, higher cost; Cross-platform: faster dev, one codebase, some limitations",
    eval_criteria := "Balanced analysis covering performance, development speed, cost, maintenance, and platform-specific features" },
  { id := "summarize_technical",
    category := "summarization",
    difficulty := "medium",
    question := "Summarize the following technical document excerpt in 3-4 bullet points, capturing the key information:\n\nThe Model Context Protocol (MCP) is an open standard that enables seamless integration between AI applications and external data sources. It provides a unified protocol for connecting language models to tools, databases, and APIs. MCP uses a client-server architecture where the AI application acts as a client connecting to MCP servers that expose resources and capabilities. Key features include: resource discovery allowing clients to find available data sources, tool invocation for executing actions, and prompt templates for structured interactions. The protocol supports both local servers running on the same machine and remote servers accessed over the network. Security is handled through capability-based access control, where servers declare what operations they support and clients request only the capabilities they need. MCP aims to replace the fragmented landscape of custom integrations with a single, standardized approach that any AI application can adopt.",
    expected_answer := "Key points: open standard for AI-data integration, client-server architecture, features (resources/tools/prompts), security via capabilities",
    eval_criteria := "Accurate summary capturing: what MCP is, architecture, key features, and security model" },
  { id := "summarize_business",
    category := "summarization",
    difficulty := "medium",
    question := "Summarize this quarterly report excerpt into an executive summary (2-3 sentences):\n\nQ3 2025 showed mixed results for Acme Corp. Revenue increased 12% year-over-year to 4.2 billion dollars, driven primarily by strong performance in the cloud services division which grew 34%. However, the legacy hardware division continued its decline, dropping 18% as customers migrate to cloud solutions. Operating margins compressed by 2 percentage points to 15% due to increased R&D spending on AI initiatives. The company announced plans to acquire DataFlow Inc. for 800 million dollars to accelerate its data analytics capabilities. Customer retention remained strong at 94%, though new customer acquisition slowed compared to Q2. The company reaffirmed its full-year revenue guidance of 17 billion dollars but lowered profit guidance citing continued investment in strategic priorities.",
    expected_answer := "Revenue up 12% to 4.2B (cloud strong, hardware declining), margins down due to R&D spend, acquiring DataFlow for 800M",
    eval_criteria := "Captures key metrics (revenue, growth rates, margins), strategic moves (acquisition), and outlook in concise format" },
  { id := "writing_email",
    category := "writing_business",
    difficulty := "easy",
    question := "Write a professional email (3-4 sentences) declining a meeting request due to a scheduling conflict, while suggesting alternative times next week.",
    expected_answer := "Professional tone, clear decline, offers alternatives, polite closing",
    eval_criteria := "Professional tone, clear communication, offers specific alternatives, appropriate length" },
  { id := "writing_proposal",
    category := "writing_business",
    difficulty := "medium",
    question := "Write an opening paragraph (4-5 sentences) for a business proposal to a potential client. The proposal is for a website redesign project. The client is a mid-sized law firm that wants to modernize their online presence and improve lead generation.",
    expected_answer := "Professional, addresses client needs, hints at solution, establishes credibility",
    eval_criteria := "Professional tone, addresses specific client pain points, positions value proposition, appropriate for law firm audience" },
  { id := "writing_story_opening",
    category := "writing_creative",
    difficulty := "medium",
    question := "Write the opening paragraph (4-5 sentences) of a mystery story set in a small coastal town. Establish atmosphere and hint at something unusual.",
    expected_answer := "Atmospheric, sets scene, introduces tension/mystery, engaging hook",
    eval_criteria := "Evocative description, clear setting, creates intrigue, strong narrative voice" },
  { id := "writing_metaphor",
    category := "writing_creative",
    difficulty := "easy",
    question := "Create an original metaphor comparing time to something unexpected (not common metaphors like \x27time is money\x27 or \x27time flies\x27). Explain why this metaphor works.",
    expected_answer := "Original metaphor with thoughtful explanation of the comparison",
    eval_criteria := "Originality (not clichÃ©), apt comparison, clear explanation of how the metaphor illuminates something about time" },
  { id := "creative_analogy",
    category := "creative",
    difficulty := "easy",
    question := "Complete this analogy and explain why: Book is to Library as _____ is to Museum.",
    expected_answer := "Artifact/Exhibit/Painting (or similar collectible item)",
    eval_criteria := "Reasonable completion with clear explanation of the relationship" },
  { id := "factual_science",
    category := "factual",
    difficulty := "easy",
    question := "Why is the sky blue? Explain in 2-3 sentences suitable for a 10-year-old.",
    expected_answer := "Rayleigh scattering; blue light scattered more than other colors",
    eval_criteria := "Scientifically accurate but age-appropriate explanation" }
]

/-- One `stage1` entry of a raw council output: a `{model, content}` pair. -/
structure Stage1Entry where
  model : String
  content : String
deriving Repr, DecidableEq

/-- The `stage2` value of a raw council output: may hold an `aggregate`
ranking mapping (modelled as an association list). -/
structure Stage2 where
  aggregate : Option (List (String × ℚ))
deriving Repr, DecidableEq

/-- The `stage3` value of a raw council output: may hold `synthesis` text and
a `chairman` model id. -/
structure Stage3 where
  synthesis : Option String
  chairman : Option String
deriving Repr, DecidableEq

/-- The top-level `consensus` value of a raw council output: may hold a
`level`. -/
structure ConsensusInfo where
  level : Option String
deriving Repr, DecidableEq

/-- A raw council-pipeline output dict. Each key that eval.py accesses with a
presence check or `.get` default is an `Option` field. -/
structure CouncilOutput where
  tier : Option String
  stage1 : Option (List Stage1Entry)
  stage2 : Option Stage2
  stage3 : Option Stage3
  consensus : Option ConsensusInfo
deriving Repr, DecidableEq

/-- The dict built by `sanitize_result` (eval.py lines 294-321). A field of
type `Option _` is `none` exactly when the corresponding key is never
assigned; `chairman`/`consensus` are doubly optional because the key can be
assigned the value `None`. -/
structure SanitizedResult where
  tier : Option String
  models_queried : Nat
  responses : Option (List Stage1Entry)
  rankings : Option (List (String × ℚ))
  synthesis : Option String
  chairman : Option (Option String)
  consensus : Option (Option String)
deriving Repr, DecidableEq

/-- `sanitize_result(result, mode)` (eval.py lines 294-321): extract key
information from a raw council output for storage. Each field below is the
value the Python dict holds for that key after the function's sequence of
conditional assignments (`none` = key never assigned). -/
def sanitize_result (result : CouncilOutput) (mode : String) : SanitizedResult :=
  { tier := result.tier
    models_queried := (result.stage1.getD []).length
    responses :=
      match result.stage1 with
      | some entries =>
          some (entries.map fun r => { model := r.model, content := strTake r.content 2000 })
      | none => none
    rankings :=
      if mode = "ranked" ∨ mode = "full" then
        match result.stage2 with
        | some s2 => some (s2.aggregate.getD [])
        | none => none
      else none
    synthesis :=
      if mode = "full" then
        match result.stage3 with
        | some s3 => some (strTake (s3.synthesis.getD "") 3000)
        | none => none
      else none
    chairman :=
      if mode = "full" then
        match result.stage3 with
        | some s3 => some s3.chairman
        | none => none
      else none
    consensus :=
      if mode = "full" then
        match result.stage3 with
        | some _ => some ((result.consensus.getD { level := none }).level)
        | none => none
      else none }

/-- The external tier-configuration collaborator (config.py, outside this
repository's core): the three council model lists and the current chairman. -/
structure CouncilConfig where
  COUNCIL_PREMIUM : List String
  COUNCIL_STANDARD : List String
  COUNCIL_BUDGET : List String
  chairman : Option String

/-- The external council-pipeline collaborator (conclave.py): the three query
functions, each taking the question and the model list and either returning a
raw `CouncilOutput` or raising (modelled as `Except.error` carrying the
failure's textual description `str(e)`). -/
structure CouncilPipeline where
  run_council_quick : String → List String → Except String CouncilOutput
  run_council_ranked : String → List String → Except String CouncilOutput
  run_council_full : String → List String → Except String CouncilOutput

/-- The tier selection and mode dispatch at the head of `run_single_eval`
(eval.py lines 247-262): pick the model list from `tier` (unknown tiers fall
back to standard) and issue the one council call selected by `mode` (unknown
modes fall back to full). -/
def council_dispatch (cfg : CouncilConfig) (pipe : CouncilPipeline)
    (task : EvalTask) (tier : String) (mode : String) : Except String CouncilOutput :=
  let models :=
    if tier = "premium" then cfg.COUNCIL_PREMIUM
    else if tier = "budget" then cfg.COUNCIL_BUDGET
    else cfg.COUNCIL_STANDARD
  if mode = "quick" then pipe.run_council_quick task.question models
  else if mode = "ranked" then pipe.run_council_ranked task.question models
  else pipe.run_council_full task.question models

/-- The per-task record returned by `run_single_eval` (eval.py lines 266-291).
The success branch populates `question`/`expected`/`eval_criteria`/`result`
and no `error` key; the failure branch populates `error` and none of those. -/
structure EvalResult where
  task_id : String
  category : String
  difficulty : String
  tier : String
  mode : String
  success : Bool
  elapsed_seconds : ℚ
  question : Option String
  expected : Option String
  eval_criteria : Option String
  result : Option SanitizedResult
  error : Option String
deriving Repr, DecidableEq

/-- `run_single_eval(task, tier, mode)` (eval.py lines 230-291). The
wall-clock duration of the council call (success or failure alike) is the
input `elapsed`; the function stores it rounded to two decimals. -/
def run_single_eval (cfg : CouncilConfig) (pipe : CouncilPipeline)
    (task : EvalTask) (tier : String) (mode : String) (elapsed : ℚ) : EvalResult :=
  match council_dispatch cfg pipe task tier mode with
  | Except.ok result =>
      { task_id := task.id
        category := task.category
        difficulty := task.difficulty
        tier := tier
        mode := mode
        success := true
        elapsed_seconds := round2 elapsed
        question := some task.question
        expected := some task.expected_answer
        eval_criteria := some task.eval_criteria
        result := some (sanitize_result result mode)
        error := none }
  | Except.error e =>
      { task_id := task.id
        category := task.category
        difficulty := task.difficulty
        tier := tier
        mode := mode
        success := false
        elapsed_seconds := round2 elapsed
        question := none
        expected := none
        eval_criteria := none
        result := none
        error := some e }

/-- The `metadata` block of a run (eval.py lines 380-386). -/
structure RunMetadata where
  timestamp : String
  tier : String
  mode : String
  category_filter : Option String
  chairman : Option String
deriving Repr, DecidableEq

/-- The `summary` block of a run (eval.py lines 371-377). -/
structure RunSummary where
  total_tasks : Nat
  successful : Nat
  failed : Nat
  total_time_seconds : ℚ
  avg_time_seconds : ℚ
deriving Repr, DecidableEq

/-- The complete run object returned by `run_eval_suite` on the non-empty
path (eval.py lines 379-389). -/
structure EvalRun where
  metadata : RunMetadata
  summary : RunSummary
  results : List EvalResult
deriving Repr, DecidableEq

/-- EvalTask-list resolution at the head of `run_eval_suite` (eval.py lines
342-346): `tasks = tasks or EVAL_TASKS` (Python `or`, so an explicitly passed
empty list is falsy and falls back to the full catalog, exactly like passing
no list), then `if category:` filtering (a `None` or empty-string category
applies no filter). -/
def resolve_tasks (tasks : Option (List EvalTask)) (category : Option String) : List EvalTask :=
  let tasks :=
    match tasks with
    | some ts => if ts = [] then EVAL_TASKS else ts
    | none => EVAL_TASKS
  match category with
  | some c => if c = "" then tasks else tasks.filter fun t => t.category = c
  | none => tasks

/-- `run_eval_suite(tasks, tier, mode, category)` (eval.py lines 324-389).
Returns `Except.error` for the error-shaped dict
`{"error": "No tasks match the specified criteria"}` and `Except.ok` for a
complete run. The current timestamp and the external measurements are inputs:
`timestamp` is `datetime.now().isoformat()` and `elapsedOf t` is the
wall-clock duration measured for task `t`'s council call. -/
def run_eval_suite (cfg : CouncilConfig) (pipe : CouncilPipeline)
    (elapsedOf : EvalTask → ℚ) (timestamp : String)
    (tasks : Option (List EvalTask)) (tier : String) (mode : String)
    (category : Option String) : Except String EvalRun :=
  let tasks := resolve_tasks tasks category
  if tasks = [] then
    Except.error "No tasks match the specified criteria"
  else
    let results := tasks.map fun t => run_single_eval cfg pipe t tier mode (elapsedOf t)
    let successful := results.filter fun r => r.success
    let total_time := (results.map fun r => r.elapsed_seconds).sum
    Except.ok
      { metadata :=
          { timestamp := timestamp
            tier := tier
            mode := mode
            category_filter := category
            chairman := cfg.chairman }
        summary :=
          { total_tasks := tasks.length
            successful := successful.length
            failed := tasks.length - successful.length
            total_time_seconds := round2 total_time
            avg_time_seconds :=
              if tasks = [] then 0 else round2 (total_time / (tasks.length : ℚ)) }
        results := results }

/-- The file path produced by `save_eval_results` (eval.py lines 392-409):
`<output_dir>/eval_<tier>_<mode>_<timestamp>.json`, where tier and mode come
from the run's metadata and default to "unknown" when the data has no
metadata block (as the error-shaped dict does not). `file_timestamp` is
`datetime.now().strftime("%Y%m%d_%H%M%S")`. -/
def save_eval_results (eval_data : Except String EvalRun) (output_dir : String)
    (file_timestamp : String) : String :=
  let tier :=
    match eval_data with
    | Except.ok run => run.metadata.tier
    | Except.error _ => "unknown"
  let mode :=
    match eval_data with
    | Except.ok run => run.metadata.mode
    | Except.error _ => "unknown"
  output_dir ++ "/eval_" ++ tier ++ "_" ++ mode ++ "_" ++ file_timestamp ++ ".json"

/-- The parsed command-line arguments of `main` (eval.py lines 437-472). -/
structure CliArgs where
  tier : String
  mode : String
  category : Option String
  output : String
  no_save : Bool
deriving Repr

/-- What `main` observably does after the credential check: the eval data it
computes and the files it writes (path paired with the serialized data). -/
structure MainOutcome where
  eval_data : Except String EvalRun
  files_written : List (String × Except String EvalRun)

/-- `main()` (eval.py lines 437-495) after a successful credential check:
run the suite over the full catalog with the parsed arguments, then — unless
`--no-save` was given — write the eval data (whatever it is, the error-shaped
dict included) to the file named by `save_eval_results`. -/
def eval_main (cfg : CouncilConfig) (pipe : CouncilPipeline) (elapsedOf : EvalTask → ℚ)
    (timestamp : String) (file_timestamp : String) (args : CliArgs) : MainOutcome :=
  let eval_data :=
    run_eval_suite cfg pipe elapsedOf timestamp none args.tier args.mode args.category
  { eval_data := eval_data
    files_written :=
      if args.no_save then []
      else [(save_eval_results eval_data args.output file_timestamp, eval_data)] }

/-- The run extracted from a suite return, with a fixed dummy for the
error-shaped case; used to state closed facts about concrete runs. -/
def suiteRunOrDefault (x : Except String EvalRun) : EvalRun :=
  match x with
  | Except.ok r => r
  | Except.error _ =>
      { metadata :=
          { timestamp := "", tier := "", mode := "", category_filter := none, chairman := none }
        summary :=
          { total_tasks := 0, successful := 0, failed := 0
            total_time_seconds := 0, avg_time_seconds := 0 }
        results := [] }

/-- A sample tier configuration for concrete instances. -/
def sampleConfig : CouncilConfig :=
  { COUNCIL_PREMIUM := ["model-p"]
    COUNCIL_STANDARD := ["model-s"]
    COUNCIL_BUDGET := ["model-b"]
    chairman := some "model-chair" }

/-- Sample stage-1 entries for concrete instances. -/
def sampleEntries : List Stage1Entry :=
  [{ model := "model-a", content := "alpha response" },
   { model := "model-b", content := "beta response" }]

/-- A sample raw council output with all three stages and a consensus. -/
def sampleOutput : CouncilOutput :=
  { tier := some "standard"
    stage1 := some sampleEntries
    stage2 := some { aggregate := some [("model-a", 1)] }
    stage3 := some { synthesis := some "synthesis text", chairman := some "model-a" }
    consensus := some { level := some "high" } }

/-- A raw council output carrying only `stage1` and a tier. -/
def stage1OnlyOutput : CouncilOutput :=
  { tier := some "standard"
    stage1 := some sampleEntries
    stage2 := none
    stage3 := none
    consensus := none }

/-- A raw council output whose `stage3` is present but whose top-level
`consensus` is absent. -/
def consensusAbsentOutput : CouncilOutput :=
  { tier := some "standard"
    stage1 := some sampleEntries
    stage2 := none
    stage3 := some { synthesis := some "synthesis text", chairman := some "model-a" }
    consensus := none }

/-- A pipeline whose three query functions always succeed with
`sampleOutput`. -/
def samplePipeline : CouncilPipeline :=
  { run_council_quick := fun _ _ => Except.ok sampleOutput
    run_council_ranked := fun _ _ => Except.ok sampleOutput
    run_council_full := fun _ _ => Except.ok sampleOutput }

/-- A pipeline that raises `"boom"` exactly on the question `bad` and
succeeds with `sampleOutput` on every other question. -/
def pipelineFailingOn (bad : String) : CouncilPipeline :=
  { run_council_quick := fun q _ => if q = bad then Except.error "boom" else Except.ok sampleOutput
    run_council_ranked := fun q _ => if q = bad then Except.error "boom" else Except.ok sampleOutput
    run_council_full := fun q _ => if q = bad then Except.error "boom" else Except.ok sampleOutput }

/-- A small concrete task (not from the catalog), for explicit-task runs. -/
def taskA : EvalTask :=
  { id := "a", category := "catA", difficulty := "easy"
    question := "qa", expected_answer := "ea", eval_criteria := "ca" }

/-- A second small concrete task. -/
def taskB : EvalTask :=
  { id := "b", category := "catB", difficulty := "medium"
    question := "qb", expected_answer := "eb", eval_criteria := "cb" }

/-- A third small concrete task. -/
def taskC : EvalTask :=
  { id := "c", category := "catA", difficulty := "hard"
    question := "qc", expected_answer := "ec", eval_criteria := "cc" }

/-- Elapsed-time sampling used by the concrete timing run: 2 seconds for
`taskA`, 1 second for every other task. -/
def cexElapsed : EvalTask → ℚ := fun t => if t.id = "a" then 2 else 1

/-- The concrete timing run: three explicit tasks, all succeeding, with
elapsed times 2, 1, 1. -/
def cexSuite : Except String EvalRun :=
  run_eval_suite sampleConfig samplePipeline cexElapsed "2025-01-01T00:00:00"
    (some [taskA, taskB, taskC]) "standard" "full" none

/-- Command-line arguments with a category filter matching no catalog task
and saving enabled. -/
def cexArgs : CliArgs :=
  { tier := "standard", mode := "full", category := some "nonexistent"
    output := "evals", no_save := false }

/-- The `main` run on `cexArgs`: a category filter that matches nothing,
without `--no-save`. -/
def cexMain : MainOutcome :=
  eval_main sampleConfig samplePipeline (fun _ => 1) "2025-01-01T00:00:00" "20250101_000000"
    cexArgs

/-- The task-list resolution C7 describes, written from the claim's words:
the explicit `tasks` argument whenever one is given (an explicitly given
empty list included), else the full catalog; then filtered by `category`
when a category is given. Compare with `resolve_tasks`, the code's actual
resolution. -/
def resolve_tasks_claimed (tasks : Option (List EvalTask)) (category : Option String) :
    List EvalTask :=
  let base :=
    match tasks with
    | some ts => ts
    | none => EVAL_TASKS
  match category with
  | some c => base.filter fun t => t.category = c
  | none => base

/-- `strTake` keeps exactly `min L n` characters. -/
theorem strTake_length (s : String) (n : Nat) : (strTake s n).length = min s.length n := by
  show (s.data.take n).length = min s.data.length n
  rw [List.length_take, Nat.min_comm]

/-- `strTake` yields a prefix of the original character list. -/
theorem strTake_isPref (s : String) (n : Nat) : (strTake s n).data <+: s.data :=
  ⟨s.data.drop n, List.take_append_drop n s.data⟩

/-- `round2` is the identity on integer multiples of one hundredth. -/
theorem round2_int_div (k : ℤ) : round2 ((k : ℚ) / 100) = (k : ℚ) / 100 := by
  unfold round2
  rw [div_mul_cancel₀ _ (by norm_num : (100 : ℚ) ≠ 0)]
  norm_num

/-- Every `round2` value is an integer multiple of one hundredth. -/
theorem round2_shape (q : ℚ) : ∃ k : ℤ, round2 q = (k : ℚ) / 100 :=
  ⟨⌊q * 100 + 1 / 2⌋, rfl⟩

/-- Evaluation rule for `round2` by bracketing the scaled value. -/
theorem round2_eval (q : ℚ) (k : ℤ) (h1 : (k : ℚ) ≤ q * 100 + 1 / 2)
    (h2 : q * 100 + 1 / 2 < (k : ℚ) + 1) : round2 q = (k : ℚ) / 100 := by
  unfold round2
  rw [Int.floor_eq_iff.mpr ⟨h1, h2⟩]

/-- A sum of integer multiples of one hundredth is one. -/
theorem sum_hundredths (l : List ℚ) (h : ∀ x ∈ l, ∃ k : ℤ, x = (k : ℚ) / 100) :
    ∃ k : ℤ, l.sum = (k : ℚ) / 100 := by
  induction l with
  | nil => exact ⟨0, by simp⟩
  | cons a t ih =>
      obtain ⟨ka, hka⟩ := h a (by simp)
      obtain ⟨kt, hkt⟩ := ih fun x hx => h x (by simp [hx])
      exact ⟨ka + kt, by push_cast [List.sum_cons, hka, hkt]; ring⟩

/-- `run_single_eval` on a successful council call: the success record. -/
theorem run_single_eval_of_ok (cfg : CouncilConfig) (pipe : CouncilPipeline)
    (task : EvalTask) (tier mode : String) (elapsed : ℚ) (out : CouncilOutput)
    (h : council_dispatch cfg pipe task tier mode = Except.ok out) :
    run_single_eval cfg pipe task tier mode elapsed =
      { task_id := task.id, category := task.category, difficulty := task.difficulty
        tier := tier, mode := mode, success := true, elapsed_seconds := round2 elapsed
        question := some task.question, expected := some task.expected_answer
        eval_criteria := some task.eval_criteria
        result := some (sanitize_result out mode), error := none } := by
  unfold run_single_eval
  rw [h]

/-- `run_single_eval` on a failing council call: the failure record. -/
theorem run_single_eval_of_error (cfg : CouncilConfig) (pipe : CouncilPipeline)
    (task : EvalTask) (tier mode : String) (elapsed : ℚ) (e : String)
    (h : council_dispatch cfg pipe task tier mode = Except.error e) :
    run_single_eval cfg pipe task tier mode elapsed =
      { task_id := task.id, category := task.category, difficulty := task.difficulty
        tier := tier, mode := mode, success := false, elapsed_seconds := round2 elapsed
        question := none, expected := none, eval_criteria := none
        result := none, error := some e } := by
  unfold run_single_eval
  rw [h]

/-- Both branches of `run_single_eval` store the rounded elapsed time. -/
theorem run_single_eval_elapsed (cfg : CouncilConfig) (pipe : CouncilPipeline)
    (task : EvalTask) (tier mode : String) (elapsed : ℚ) :
    (run_single_eval cfg pipe task tier mode elapsed).elapsed_seconds = round2 elapsed := by
  unfold run_single_eval
  split <;> rfl

/-- `run_eval_suite` on a non-empty resolved task list: the full run record. -/
theorem run_eval_suite_of_ne_nil (cfg : CouncilConfig) (pipe : CouncilPipeline)
    (elapsedOf : EvalTask → ℚ) (ts : String) (tasks : Option (List EvalTask))
    (tier mode : String) (cat : Option String) (h : resolve_tasks tasks cat ≠ []) :
    run_eval_suite cfg pipe elapsedOf ts tasks tier mode cat =
      Except.ok
        { metadata :=
            { timestamp := ts, tier := tier, mode := mode
              category_filter := cat, chairman := cfg.chairman }
          summary :=
            { total_tasks := (resolve_tasks tasks cat).length
              successful := (((resolve_tasks tasks cat).map fun t =>
                  run_single_eval cfg pipe t tier mode (elapsedOf t)).filter
                    fun r => r.success).length
              failed := (resolve_tasks tasks cat).length -
                (((resolve_tasks tasks cat).map fun t =>
                  run_single_eval cfg pipe t tier mode (elapsedOf t)).filter
                    fun r => r.success).length
              total_time_seconds := round2 ((((resolve_tasks tasks cat).map fun t =>
                  run_single_eval cfg pipe t tier mode (elapsedOf t)).map
                    fun r => r.elapsed_seconds).sum)
              avg_time_seconds :=
                if resolve_tasks tasks cat = [] then 0
                else round2 ((((resolve_tasks tasks cat).map fun t =>
                  run_single_eval cfg pipe t tier mode (elapsedOf t)).map
                    fun r => r.elapsed_seconds).sum /
                      ((resolve_tasks tasks cat).length : ℚ)) }
          results := (resolve_tasks tasks cat).map fun t =>
            run_single_eval cfg pipe t tier mode (elapsedOf t) } := by
  simp only [run_eval_suite]
  rw [if_neg h]

/-- C1: for every well-formed raw output whose `stage1` holds `entries`,
`sanitize_result` emits one `responses` entry per stage-1 entry, in order,
with the same model and with `content` the prefix of the original content of
length `min(L, 2000)`; and whenever a `synthesis` is emitted from a stage3
carrying synthesis text `syn`, it is the prefix of `syn` of length
`min(L, 3000)`. -/
theorem sanitize_truncation_lengths (result : CouncilOutput) (mode : String)
    (entries : List Stage1Entry) (h1 : result.stage1 = some entries) :
    (∃ l, (sanitize_result result mode).responses = some l ∧
      List.Forall₂ (fun (r s : Stage1Entry) =>
        s.model = r.model ∧ s.content.length = min r.content.length 2000 ∧
        s.content.data <+: r.content.data) entries l) ∧
    (∀ s3 syn, mode = "full" → result.stage3 = some s3 → s3.synthesis = some syn →
      ∃ t, (sanitize_result result mode).synthesis = some t ∧
        t.length = min syn.length 3000 ∧ t.data <+: syn.data) := by
  have hall : ∀ es : List Stage1Entry,
      List.Forall₂ (fun (r s : Stage1Entry) =>
        s.model = r.model ∧ s.content.length = min r.content.length 2000 ∧
        s.content.data <+: r.content.data) es
        (es.map fun r => { model := r.model, content := strTake r.content 2000 }) := by
    intro es
    induction es with
    | nil => exact List.Forall₂.nil
    | cons a t ih => exact List.Forall₂.cons ⟨rfl, strTake_length _ _, strTake_isPref _ _⟩ ih
  constructor
  · exact ⟨entries.map fun r => { model := r.model, content := strTake r.content 2000 },
      by simp [sanitize_result, h1], hall entries⟩
  · intro s3 syn hm h3 hsyn
    exact ⟨strTake syn 3000, by simp [sanitize_result, hm, h3, hsyn],
      strTake_length _ _, strTake_isPref _ _⟩

/-- C1 witness: at `sampleOutput` in mode "full", both the responses list and
the synthesis are emitted. -/
theorem sanitize_truncation_lengths_witness :
    (sanitize_result sampleOutput "full").responses.isSome = true ∧
    (sanitize_result sampleOutput "full").synthesis.isSome = true := by
  obtain ⟨hresp, hsyn⟩ := sanitize_truncation_lengths sampleOutput "full" sampleEntries rfl
  obtain ⟨l, hl, -⟩ := hresp
  obtain ⟨t, ht, -, -⟩ := hsyn { synthesis := some "synthesis text", chairman := some "model-a" }
    "synthesis text" rfl rfl rfl
  rw [hl, ht]
  exact ⟨rfl, rfl⟩

/-- C2: `sanitize_result` emits `responses` exactly when `stage1` is present;
emits `rankings` exactly when the mode is "ranked" or "full" and `stage2` is
present; emits `synthesis`, `chairman` and `consensus` exactly when the mode
is "full" and `stage3` is present; and in mode "quick" emits none of
`rankings`/`synthesis`/`chairman`/`consensus`. -/
theorem sanitize_stage_key_emission (result : CouncilOutput) (mode : String) :
    ((sanitize_result result mode).responses.isSome ↔ result.stage1.isSome) ∧
    ((sanitize_result result mode).rankings.isSome ↔
      ((mode = "ranked" ∨ mode = "full") ∧ result.stage2.isSome)) ∧
    ((sanitize_result result mode).synthesis.isSome ↔
      (mode = "full" ∧ result.stage3.isSome)) ∧
    ((sanitize_result result mode).chairman.isSome ↔
      (mode = "full" ∧ result.stage3.isSome)) ∧
    ((sanitize_result result mode).consensus.isSome ↔
      (mode = "full" ∧ result.stage3.isSome)) ∧
    (mode = "quick" →
      (sanitize_result result mode).rankings = none ∧
      (sanitize_result result mode).synthesis = none ∧
      (sanitize_result result mode).chairman = none ∧
      (sanitize_result result mode).consensus = none) := by
  obtain ⟨tier, s1, s2, s3, cons⟩ := result
  cases s1 <;> cases s2 <;> cases s3 <;>
    by_cases hr : mode = "ranked" <;> by_cases hf : mode = "full" <;>
      simp [sanitize_result, hr, hf]

/-- C9 (amended): `sanitize_result` never fails on well-formed input; a
missing `stage2` omits the `rankings` key and a missing `stage3` omits the
`synthesis`/`chairman`/`consensus` keys; but a missing top-level `consensus`
with `stage3` present in mode "full" still emits the `consensus` key, with a
null value, rather than omitting it. -/
theorem sanitize_missing_stage_omission (result : CouncilOutput) (mode : String) :
    (result.stage2 = none → (sanitize_result result mode).rankings = none) ∧
    (result.stage3 = none →
      (sanitize_result result mode).synthesis = none ∧
      (sanitize_result result mode).chairman = none ∧
      (sanitize_result result mode).consensus = none) ∧
    (result.consensus = none → ∀ s3, mode = "full" → result.stage3 = some s3 →
      (sanitize_result result mode).consensus = some none) := by
  refine ⟨fun h2 => ?_, fun h3 => ⟨?_, ?_, ?_⟩, fun hc s3 hm h3 => ?_⟩ <;>
    simp [sanitize_result, *]

/-- C9 counterexample: on a raw output whose top-level `consensus` is absent
(but whose `stage3` is present, in mode "full"), the sanitized result carries
the `consensus` key with a null value — the key is not omitted. -/
theorem sanitize_consensus_key_not_omitted_cex :
    consensusAbsentOutput.consensus = none ∧
    (sanitize_result consensusAbsentOutput "full").consensus = some none ∧
    (sanitize_result consensusAbsentOutput "full").consensus ≠ none := by
  refine ⟨rfl, rfl, by simp [sanitize_result, consensusAbsentOutput]⟩

/-- C10: on a successful council call, the returned record carries the task's
full `question`, `expected_answer` (as `expected`) and `eval_criteria`,
verbatim and untruncated, alongside the sanitized result. -/
theorem run_single_eval_success_extra_fields (cfg : CouncilConfig)
    (pipe : CouncilPipeline) (task : EvalTask) (tier mode : String) (elapsed : ℚ)
    (out : CouncilOutput)
    (h : council_dispatch cfg pipe task tier mode = Except.ok out) :
    (run_single_eval cfg pipe task tier mode elapsed).question = some task.question ∧
    (run_single_eval cfg pipe task tier mode elapsed).expected = some task.expected_answer ∧
    (run_single_eval cfg pipe task tier mode elapsed).eval_criteria = some task.eval_criteria ∧
    (run_single_eval cfg pipe task tier mode elapsed).success = true ∧
    (run_single_eval cfg pipe task tier mode elapsed).result =
      some (sanitize_result out mode) := by
  rw [run_single_eval_of_ok cfg pipe task tier mode elapsed out h]
  exact ⟨rfl, rfl, rfl, rfl, rfl⟩

/-- C10 witness: a concrete successful run of `taskA` carries its question,
expected answer and eval criteria. -/
theorem run_single_eval_success_extra_fields_witness :
    (run_single_eval sampleConfig samplePipeline taskA "standard" "full" 1).question =
      some taskA.question ∧
    (run_single_eval sampleConfig samplePipeline taskA "standard" "full" 1).expected =
      some taskA.expected_answer ∧
    (run_single_eval sampleConfig samplePipeline taskA "standard" "full" 1).eval_criteria =
      some taskA.eval_criteria ∧
    (run_single_eval sampleConfig samplePipeline taskA "standard" "full" 1).success = true ∧
    (run_single_eval sampleConfig samplePipeline taskA "standard" "full" 1).result =
      some (sanitize_result sampleOutput "full") :=
  run_single_eval_success_extra_fields sampleConfig samplePipeline taskA "standard" "full" 1
    sampleOutput rfl

/-- C3: a failing council call makes `run_single_eval` return (not raise) the
failure record — `success = false`, the elapsed time up to the failure point
(rounded), the failure's textual description in `error`, and no
question/expected/criteria/result fields; and in a three-task run in which
exactly one pipeline call (at any position) fails with a non-empty
description, the summary counts 2 successes and 1 failure, and the failing
entry has that non-empty `error` and no `result`. -/
theorem run_single_eval_failure_isolation (cfg : CouncilConfig)
    (pipe : CouncilPipeline) (tier mode : String) (elapsedOf : EvalTask → ℚ)
    (ts : String) :
    (∀ task e elapsed, council_dispatch cfg pipe task tier mode = Except.error e →
      run_single_eval cfg pipe task tier mode elapsed =
        { task_id := task.id, category := task.category, difficulty := task.difficulty
          tier := tier, mode := mode, success := false, elapsed_seconds := round2 elapsed
          question := none, expected := none, eval_criteria := none
          result := none, error := some e }) ∧
    (∀ l1 l2 tbad e tasks cat,
      resolve_tasks tasks cat = l1 ++ tbad :: l2 →
      (∀ t ∈ l1, ∃ o, council_dispatch cfg pipe t tier mode = Except.ok o) →
      (∀ t ∈ l2, ∃ o, council_dispatch cfg pipe t tier mode = Except.ok o) →
      council_dispatch cfg pipe tbad tier mode = Except.error e →
      e ≠ "" →
      l1.length + l2.length = 2 →
      ∃ r, run_eval_suite cfg pipe elapsedOf ts tasks tier mode cat = Except.ok r ∧
        r.summary.total_tasks = 3 ∧
        r.summary.successful = 2 ∧ r.summary.failed = 1 ∧
        ∃ fr, r.results[l1.length]? = some fr ∧
          fr.error = some e ∧ fr.error ≠ some "" ∧ fr.result = none) := by
  constructor
  · exact fun task e elapsed h => run_single_eval_of_error cfg pipe task tier mode elapsed e h
  · intro l1 l2 tbad e tasks cat hres hok1 hok2 hbad he hlen
    have hbadrec := run_single_eval_of_error cfg pipe tbad tier mode (elapsedOf tbad) e hbad
    have hfilter1 : (l1.map fun t =>
        run_single_eval cfg pipe t tier mode (elapsedOf t)).filter (fun r => r.success) =
          l1.map fun t => run_single_eval cfg pipe t tier mode (elapsedOf t) := by
      rw [List.filter_eq_self]
      intro x hx
      obtain ⟨t, ht, rfl⟩ := List.mem_map.mp hx
      obtain ⟨o, ho⟩ := hok1 t ht
      rw [run_single_eval_of_ok cfg pipe t tier mode (elapsedOf t) o ho]
    have hfilter2 : (l2.map fun t =>
        run_single_eval cfg pipe t tier mode (elapsedOf t)).filter (fun r => r.success) =
          l2.map fun t => run_single_eval cfg pipe t tier mode (elapsedOf t) := by
      rw [List.filter_eq_self]
      intro x hx
      obtain ⟨t, ht, rfl⟩ := List.mem_map.mp hx
      obtain ⟨o, ho⟩ := hok2 t ht
      rw [run_single_eval_of_ok cfg pipe t tier mode (elapsedOf t) o ho]
    have hsucclen : (((l1 ++ tbad :: l2).map fun t =>
        run_single_eval cfg pipe t tier mode (elapsedOf t)).filter
          (fun r => r.success)).length = 2 := by
      simp only [List.map_append, List.map_cons, List.filter_append, List.filter_cons]
      rw [hbadrec, hfilter1, hfilter2]
      simp [hlen]
    have htotlen : (l1 ++ tbad :: l2).length = 3 := by
      simp only [List.length_append, List.length_cons]
      omega
    have hrun := run_eval_suite_of_ne_nil cfg pipe elapsedOf ts tasks tier mode cat
      (by rw [hres]; simp)
    rw [hres] at hrun
    refine ⟨_, hrun, htotlen, hsucclen, ?_, ?_⟩
    · show (l1 ++ tbad :: l2).length - _ = 1
      rw [htotlen, hsucclen]
    · have hfr : ((l1 ++ tbad :: l2).map fun t =>
          run_single_eval cfg pipe t tier mode (elapsedOf t))[l1.length]? =
            some (run_single_eval cfg pipe tbad tier mode (elapsedOf tbad)) := by
        rw [List.map_append, List.getElem?_append_right (by rw [List.length_map])]
        simp
      refine ⟨run_single_eval cfg pipe tbad tier mode (elapsedOf tbad), hfr, ?_, ?_, ?_⟩
      · rw [hbadrec]
      · rw [hbadrec]
        simp [he]
      · rw [hbadrec]

/-- C3 witness: a concrete three-task run whose second task alone fails. -/
theorem run_single_eval_failure_isolation_witness :
    ∃ r, run_eval_suite sampleConfig (pipelineFailingOn "qb") cexElapsed "T"
        (some [taskA, taskB, taskC]) "standard" "full" none = Except.ok r ∧
      r.summary.successful = 2 ∧ r.summary.failed = 1 := by
  obtain ⟨-, hiso⟩ := run_single_eval_failure_isolation sampleConfig
    (pipelineFailingOn "qb") "standard" "full" cexElapsed "T"
  obtain ⟨r, hr, -, hs, hf, -⟩ := hiso [taskA] [taskC] taskB "boom"
    (some [taskA, taskB, taskC]) none rfl
    (by intro t ht; obtain rfl : t = taskA := (by simpa using ht); exact ⟨sampleOutput, rfl⟩)
    (by intro t ht; obtain rfl : t = taskC := (by simpa using ht); exact ⟨sampleOutput, rfl⟩)
    rfl (by decide) (by decide)
  exact ⟨r, hr, hs, hf⟩

/-- C4: whenever the resolved task list is empty, `run_eval_suite` returns the
error-shaped value without raising and without any council call — the result
is independent of the configuration, the pipeline and the timings. -/
theorem run_eval_suite_empty_short_circuit (cfg cfg2 : CouncilConfig)
    (pipe pipe2 : CouncilPipeline) (elapsedOf elapsedOf2 : EvalTask → ℚ)
    (ts ts2 : String) (tasks : Option (List EvalTask)) (tier mode : String)
    (cat : Option String) (h : resolve_tasks tasks cat = []) :
    run_eval_suite cfg pipe elapsedOf ts tasks tier mode cat =
      Except.error "No tasks match the specified criteria" ∧
    run_eval_suite cfg pipe elapsedOf ts tasks tier mode cat =
      run_eval_suite cfg2 pipe2 elapsedOf2 ts2 tasks tier mode cat := by
  have e1 : run_eval_suite cfg pipe elapsedOf ts tasks tier mode cat =
      Except.error "No tasks match the specified criteria" := by
    simp only [run_eval_suite]
    rw [if_pos h]
  have e2 : run_eval_suite cfg2 pipe2 elapsedOf2 ts2 tasks tier mode cat =
      Except.error "No tasks match the specified criteria" := by
    simp only [run_eval_suite]
    rw [if_pos h]
  exact ⟨e1, e1.trans e2.symm⟩

/-- C4 witness: a category absent from the catalog resolves to the empty list
and short-circuits, identically under two different pipelines. -/
theorem run_eval_suite_empty_short_circuit_witness :
    run_eval_suite sampleConfig samplePipeline (fun _ => 1) "T" none "standard" "full"
      (some "nonexistent") = Except.error "No tasks match the specified criteria" ∧
    run_eval_suite sampleConfig samplePipeline (fun _ => 1) "T" none "standard" "full"
      (some "nonexistent") =
    run_eval_suite sampleConfig (pipelineFailingOn "qa") (fun _ => 2) "T2" none "standard"
      "full" (some "nonexistent") :=
  run_eval_suite_empty_short_circuit sampleConfig sampleConfig samplePipeline
    (pipelineFailingOn "qa") (fun _ => 1) (fun _ => 2) "T" "T2" none "standard" "full"
    (some "nonexistent") (by decide)

/-- C8: on a non-empty resolved task list the run holds exactly one result per
task, produced by `run_single_eval`, in the same order as the resolved list. -/
theorem run_eval_suite_result_order (cfg : CouncilConfig) (pipe : CouncilPipeline)
    (elapsedOf : EvalTask → ℚ) (ts : String) (tasks : Option (List EvalTask))
    (tier mode : String) (cat : Option String)
    (h : resolve_tasks tasks cat ≠ []) :
    ∃ r, run_eval_suite cfg pipe elapsedOf ts tasks tier mode cat = Except.ok r ∧
      r.results = (resolve_tasks tasks cat).map
        (fun t => run_single_eval cfg pipe t tier mode (elapsedOf t)) ∧
      r.results.length = (resolve_tasks tasks cat).length ∧
      ∀ i : ℕ, r.results[i]? = ((resolve_tasks tasks cat)[i]?).map
        fun t => run_single_eval cfg pipe t tier mode (elapsedOf t) := by
  refine ⟨_, run_eval_suite_of_ne_nil cfg pipe elapsedOf ts tasks tier mode cat h,
    rfl, by simp, fun i => ?_⟩
  simp [List.getElem?_map]

/-- C8 witness: a concrete two-task run yields two results in order. -/
theorem run_eval_suite_result_order_witness :
    ∃ r, run_eval_suite sampleConfig samplePipeline (fun _ => 1) "T"
        (some [taskA, taskB]) "standard" "full" none = Except.ok r ∧
      r.results.length = 2 := by
  obtain ⟨r, hr, -, hlen, -⟩ := run_eval_suite_result_order sampleConfig samplePipeline
    (fun _ => 1) "T" (some [taskA, taskB]) "standard" "full" none (by decide)
  refine ⟨r, hr, ?_⟩
  rw [hlen]
  decide

/-- C6 (amended): every returned run summary has a positive task count (the
empty case short-circuits before a summary exists), and its
`avg_time_seconds` is `total_time_seconds / total_tasks` rounded to two
decimals — the stored average is the rounded quotient, not the exact one. -/
theorem summary_avg_is_rounded_quotient (cfg : CouncilConfig) (pipe : CouncilPipeline)
    (elapsedOf : EvalTask → ℚ) (ts : String) (tasks : Option (List EvalTask))
    (tier mode : String) (cat : Option String) (r : EvalRun)
    (h : run_eval_suite cfg pipe elapsedOf ts tasks tier mode cat = Except.ok r) :
    0 < r.summary.total_tasks ∧
    r.summary.avg_time_seconds =
      round2 (r.summary.total_time_seconds / (r.summary.total_tasks : ℚ)) := by
  by_cases hnil : resolve_tasks tasks cat = []
  · exfalso
    rw [(run_eval_suite_empty_short_circuit cfg cfg pipe pipe elapsedOf elapsedOf
      ts ts tasks tier mode cat hnil).1] at h
    exact Except.noConfusion h
  · rw [run_eval_suite_of_ne_nil cfg pipe elapsedOf ts tasks tier mode cat hnil] at h
    obtain rfl : _ = r := by injection h
    have hsum : ∃ k : ℤ,
        (((resolve_tasks tasks cat).map fun t =>
          run_single_eval cfg pipe t tier mode (elapsedOf t)).map
            fun x => x.elapsed_seconds).sum = (k : ℚ) / 100 := by
      refine sum_hundredths _ fun x hx => ?_
      rw [List.map_map] at hx
      obtain ⟨t, -, rfl⟩ := List.mem_map.mp hx
      simp only [Function.comp_apply, run_single_eval_elapsed]
      exact round2_shape (elapsedOf t)
    obtain ⟨k, hk⟩ := hsum
    constructor
    · exact List.length_pos.mpr hnil
    · show (if resolve_tasks tasks cat = [] then 0 else _) = _
      rw [if_neg hnil, hk, round2_int_div]

/-- C6 witness: the concrete timing run (three tasks, elapsed 2, 1, 1) has a
positive task count and the rounded-quotient average. -/
theorem summary_avg_is_rounded_quotient_witness :
    0 < (suiteRunOrDefault cexSuite).summary.total_tasks ∧
    (suiteRunOrDefault cexSuite).summary.avg_time_seconds =
      round2 ((suiteRunOrDefault cexSuite).summary.total_time_seconds /
        ((suiteRunOrDefault cexSuite).summary.total_tasks : ℚ)) :=
  summary_avg_is_rounded_quotient sampleConfig samplePipeline cexElapsed
    "2025-01-01T00:00:00" (some [taskA, taskB, taskC]) "standard" "full" none
    (suiteRunOrDefault cexSuite) rfl

/-- C6 counterexample: in the concrete timing run the stored total is 4 s over
3 tasks, and the stored average 1.33 differs from the exact quotient 4/3 —
`avg_time_seconds` does not equal `total_time_seconds / total_tasks`. -/
theorem summary_avg_exact_quotient_cex :
    0 < (suiteRunOrDefault cexSuite).summary.total_tasks ∧
    (suiteRunOrDefault cexSuite).summary.avg_time_seconds ≠
      (suiteRunOrDefault cexSuite).summary.total_time_seconds /
        ((suiteRunOrDefault cexSuite).summary.total_tasks : ℚ) := by
  have ra : round2 2 = 2 := by
    rw [round2_eval 2 200 (by norm_num) (by norm_num)]
    norm_num
  have rb : round2 1 = 1 := by
    rw [round2_eval 1 100 (by norm_num) (by norm_num)]
    norm_num
  have rc : round2 4 = 4 := by
    rw [round2_eval 4 400 (by norm_num) (by norm_num)]
    norm_num
  have rd : round2 (4 / 3) = 133 / 100 := by
    rw [round2_eval (4 / 3) 133 (by norm_num) (by norm_num)]
    norm_num
  have h1 : (suiteRunOrDefault cexSuite).summary.total_tasks = 3 := rfl
  have h2 : (suiteRunOrDefault cexSuite).summary.avg_time_seconds =
      round2 ((round2 2 + (round2 1 + (round2 1 + (0 : ℚ)))) / ((3 : ℕ) : ℚ)) := rfl
  have h3 : (suiteRunOrDefault cexSuite).summary.total_time_seconds =
      round2 (round2 2 + (round2 1 + (round2 1 + (0 : ℚ)))) := rfl
  have hsum : (2 : ℚ) + (1 + (1 + 0)) = 4 := by norm_num
  have hcast : ((3 : ℕ) : ℚ) = 3 := by norm_num
  refine ⟨by rw [h1]; norm_num, ?_⟩
  rw [h1, h2, h3, ra, rb, hsum, hcast, rc, rd]
  norm_num

/-- C7 (amended): `run_eval_suite`'s resolution uses a non-empty explicit
task list as given; an explicitly given empty list behaves exactly like
giving no list and falls back to the full catalog; and the category filter
applies when a non-empty category is given (a `None` or empty-string
category leaves the list unfiltered). -/
theorem resolve_tasks_resolution_properties :
    (∀ ts c, ts ≠ [] → c ≠ "" →
      resolve_tasks (some ts) (some c) = ts.filter fun t => t.category = c) ∧
    (∀ ts, ts ≠ [] → resolve_tasks (some ts) none = ts) ∧
    (∀ cat, resolve_tasks (some []) cat = resolve_tasks none cat) ∧
    (∀ c, c ≠ "" →
      resolve_tasks none (some c) = EVAL_TASKS.filter fun t => t.category = c) ∧
    resolve_tasks none none = EVAL_TASKS ∧
    (∀ ts, resolve_tasks ts (some "") = resolve_tasks ts none) := by
  refine ⟨fun ts c hts hc => ?_, fun ts hts => ?_, fun cat => rfl, fun c hc => ?_, rfl,
    fun ts => ?_⟩
  · simp only [resolve_tasks]
    rw [if_neg hts, if_neg hc]
  · simp only [resolve_tasks]
    rw [if_neg hts]
  · simp only [resolve_tasks]
    rw [if_neg hc]
  · simp [resolve_tasks]

/-- C7 counterexample: C7 as stated resolves an explicitly given empty task
list to that empty list; the code's resolution maps it to the full 16-task
catalog instead (`tasks or EVAL_TASKS` treats the empty list as falsy). -/
theorem resolve_tasks_empty_list_cex :
    resolve_tasks (some []) none ≠ resolve_tasks_claimed (some []) none ∧
    resolve_tasks (some []) none = EVAL_TASKS ∧
    resolve_tasks_claimed (some []) none = [] ∧
    EVAL_TASKS.length = 16 := by
  exact ⟨by decide, rfl, rfl, by decide⟩

/-- C5 (amended): with a category filter matching no catalog task and saving
enabled, the run yields the error-shaped value, no task executions occur (the
outcome is independent of pipeline/configuration/timings), but — contrary to
the claim — a file is still written: `main` saves whatever `run_eval_suite`
returned, so the error value itself is persisted under
`eval_unknown_unknown_<timestamp>.json`. -/
theorem eval_main_unmatched_category_behavior (cfg cfg2 : CouncilConfig)
    (pipe pipe2 : CouncilPipeline) (elapsedOf elapsedOf2 : EvalTask → ℚ)
    (ts fts : String) (args : CliArgs) (c : String)
    (hcat : args.category = some c) (hc : c ≠ "")
    (hmatch : ∀ t ∈ EVAL_TASKS, t.category ≠ c)
    (hsave : args.no_save = false) :
    (eval_main cfg pipe elapsedOf ts fts args).eval_data =
      Except.error "No tasks match the specified criteria" ∧
    (eval_main cfg pipe elapsedOf ts fts args).eval_data =
      (eval_main cfg2 pipe2 elapsedOf2 ts fts args).eval_data ∧
    (eval_main cfg pipe elapsedOf ts fts args).files_written =
      [(save_eval_results (Except.error "No tasks match the specified criteria")
          args.output fts,
        Except.error "No tasks match the specified criteria")] ∧
    (eval_main cfg pipe elapsedOf ts fts args).files_written ≠ [] := by
  have hres : resolve_tasks none args.category = [] := by
    rw [hcat]
    simp only [resolve_tasks]
    rw [if_neg hc]
    exact List.filter_eq_nil_iff.mpr fun t ht => by simpa using hmatch t ht
  have h1 : run_eval_suite cfg pipe elapsedOf ts none args.tier args.mode args.category =
      Except.error "No tasks match the specified criteria" :=
    (run_eval_suite_empty_short_circuit cfg cfg pipe pipe elapsedOf elapsedOf ts ts
      none args.tier args.mode args.category hres).1
  have h2 : run_eval_suite cfg2 pipe2 elapsedOf2 ts none args.tier args.mode args.category =
      Except.error "No tasks match the specified criteria" :=
    (run_eval_suite_empty_short_circuit cfg2 cfg2 pipe2 pipe2 elapsedOf2 elapsedOf2 ts ts
      none args.tier args.mode args.category hres).1
  refine ⟨?_, ?_, ?_, ?_⟩
  · show run_eval_suite cfg pipe elapsedOf ts none args.tier args.mode args.category = _
    exact h1
  · show run_eval_suite cfg pipe elapsedOf ts none args.tier args.mode args.category =
      run_eval_suite cfg2 pipe2 elapsedOf2 ts none args.tier args.mode args.category
    rw [h1, h2]
  · show (if args.no_save then [] else _) = _
    rw [hsave, if_neg (by simp)]
    show [(save_eval_results
        (run_eval_suite cfg pipe elapsedOf ts none args.tier args.mode args.category)
        args.output fts, _)] = _
    rw [h1]
  · show (if args.no_save then [] else _) ≠ _
    rw [hsave, if_neg (by simp)]
    simp

/-- C5 witness: the concrete arguments of `cexArgs` (category "nonexistent",
saving enabled) yield the error value. -/
theorem eval_main_unmatched_category_behavior_witness :
    (eval_main sampleConfig samplePipeline (fun _ => 1) "2025-01-01T00:00:00"
      "20250101_000000" cexArgs).eval_data =
        Except.error "No tasks match the specified criteria" :=
  (eval_main_unmatched_category_behavior sampleConfig sampleConfig samplePipeline
    (pipelineFailingOn "qa") (fun _ => 1) (fun _ => 2) "2025-01-01T00:00:00"
    "20250101_000000" cexArgs "nonexistent" rfl (by decide) (by decide) rfl).1

/-- C5 counterexample: on the concrete run with category "nonexistent" and
saving enabled, the claim says no file is written; the code writes one —
`evals/eval_unknown_unknown_20250101_000000.json`, holding the error value. -/
theorem eval_main_unmatched_category_writes_file_cex :
    cexMain.eval_data = Except.error "No tasks match the specified criteria" ∧
    cexMain.files_written =
      [("evals/eval_unknown_unknown_20250101_000000.json",
        Except.error "No tasks match the specified criteria")] ∧
    cexMain.files_written ≠ [] := by
  have h2 : cexMain.files_written =
      [("evals/eval_unknown_unknown_20250101_000000.json",
        Except.error "No tasks match the specified criteria")] := rfl
  exact ⟨rfl, h2, by rw [h2]; exact List.cons_ne_nil _ _⟩
